import Mathlib

/-!
Shallow embedding of `lib/charms/vault_k8s/v0/vault_client.py` (vault-operator).

Each facade method of the `Vault` class is a pure Lean function. The remote
server is modelled by passing the response of the underlying client call as an
explicit argument of type `Except PyExn r` (the call either returns a value or
raises a Python exception), and state-mutating operations take and return an
explicit `ServerState`. The result of a facade method is an `Outcome`: a normal
return value, a raised `VaultClientError` (the facade error kind), or an
uncaught Python exception propagating to the caller.
-/

namespace VaultClient

/-- Truth-relevant shape of the `e.json` attribute of an hvac `InvalidRequest`
exception: whether the value is truthy, whether it is a dict, and the value of
`e.json.get("errors", [])` when it is a dict. -/
structure EJsonVal where
  truthy : Bool
  isDict : Bool
  errors : List String
deriving DecidableEq, Repr

/-- The Python exceptions the source code distinguishes.
`invalidRequest`, `invalidPath`, `forbidden` and `vaultError` are the hvac
`VaultError` hierarchy (`vaultError` standing for any other subclass);
`connectionError` and `requestException` are the requests hierarchy
(`connectionError` is a subclass of `RequestException`); the remaining
constructors are builtin exceptions the code can meet. -/
inductive PyExn where
  | invalidRequest (j : EJsonVal)
  | invalidPath
  | forbidden
  | vaultError
  | connectionError
  | requestException
  | typeError
  | keyError
  | indexError
  | other
deriving DecidableEq, Repr

/-- Whether the exception is an instance of hvac `VaultError`. -/
def PyExn.isVaultError : PyExn → Bool
  | .invalidRequest _ => true
  | .invalidPath => true
  | .forbidden => true
  | .vaultError => true
  | _ => false

/-- Whether the exception is an instance of requests `RequestException`. -/
def PyExn.isRequestException : PyExn → Bool
  | .connectionError => true
  | .requestException => true
  | _ => false

/-- Whether the exception is an instance of requests `ConnectionError`. -/
def PyExn.isConnectionError : PyExn → Bool
  | .connectionError => true
  | _ => false

/-- Whether the exception is an instance of hvac `InvalidRequest`. -/
def PyExn.isInvalidRequest : PyExn → Bool
  | .invalidRequest _ => true
  | _ => false

/-- Result of a facade method: a normal return, a raised `VaultClientError`
(the facade-level error kind wrapping the cause), or an uncaught Python
exception propagating unchanged. -/
inductive Outcome (α : Type) where
  | ok (a : α)
  | vaultClientError
  | raised (e : PyExn)
deriving DecidableEq, Repr

/-- `AuditDeviceType` enum from the source. -/
inductive AuditDeviceType where
  | FILE
  | SYSLOG
  | SOCKET
deriving DecidableEq, Repr

/-- `SecretsBackend` enum from the source. -/
inductive SecretsBackend where
  | KV_V2
  | PKI
  | TRANSIT
deriving DecidableEq, Repr

/-- The `Certificate` dataclass from the source. -/
structure Certificate where
  certificate : String
  ca : String
  chain : List String
deriving DecidableEq, Repr

/-- The client session state: the token held by the hvac client, absent until
some login installs one. -/
structure Client where
  token : Option String
deriving DecidableEq, Repr

/-- The two auth method dataclasses (`Token` and `AppRole`) as a closed sum. -/
inductive AuthDetails where
  | token (t : String)
  | appRole (role_id secret_id : String)
deriving DecidableEq, Repr

/-- `Token.login` sets `client.token = self.token` with no server round trip;
`AppRole.login` calls the server approle login (response passed in) and, with
`use_token=True`, installs the returned token on success. -/
def AuthDetails.login (auth : AuthDetails) (approleLoginResp : Except PyExn String)
    (c : Client) : Except PyExn Client :=
  match auth with
  | .token t => .ok { c with token := some t }
  | .appRole _ _ =>
      match approleLoginResp with
      | .ok tok => .ok { c with token := some tok }
      | .error e => .error e

/-- `Vault.authenticate`: run the login of the given auth method; catch
`(VaultError, ConnectionError)` and return false, otherwise return true with
the updated client. Other exceptions propagate. -/
def authenticate (auth : AuthDetails) (approleLoginResp : Except PyExn String)
    (c : Client) : Outcome (Bool × Client) :=
  match auth.login approleLoginResp c with
  | .ok c2 => .ok (true, c2)
  | .error e =>
      if e.isVaultError || e.isConnectionError then .ok (false, c) else .raised e

/-- Data of a token self-lookup response. -/
structure TokenData where
  fields : List (String × String)
deriving DecidableEq, Repr

/-- `Vault.get_token_data`: return the `data` of a token self-lookup, `none`
when the server answers `Forbidden`; other exceptions propagate. -/
def get_token_data (resp : Except PyExn TokenData) : Outcome (Option TokenData) :=
  match resp with
  | .ok d => .ok (some d)
  | .error .forbidden => .ok none
  | .error e => .raised e

/-- `Vault.is_api_available`: true when the health read succeeds, false on any
`VaultError` or `RequestException`. -/
def is_api_available (resp : Except PyExn Unit) : Outcome Bool :=
  match resp with
  | .ok _ => .ok true
  | .error e =>
      if e.isVaultError || e.isRequestException then .ok false else .raised e

/-- `Vault.is_initialized`: returns `self._client.sys.is_initialized()` with no
exception handling of its own. -/
def is_initialized (resp : Except PyExn Bool) : Outcome Bool :=
  match resp with
  | .ok b => .ok b
  | .error e => .raised e

/-- `Vault.is_sealed`: returns `self._client.sys.is_sealed()` with no exception
handling of its own. -/
def is_sealed (resp : Except PyExn Bool) : Outcome Bool :=
  match resp with
  | .ok b => .ok b
  | .error e => .raised e

/-- The fields of `self._client.seal_status` that the source reads. -/
structure SealStatusData where
  migration : Bool
  seal_type : String
deriving DecidableEq, Repr

/-- `Vault.needs_migration`: returns `seal_status["migration"]`, no exception
handling of its own. -/
def needs_migration (seal_status : Except PyExn SealStatusData) : Outcome Bool :=
  match seal_status with
  | .ok d => .ok d.migration
  | .error e => .raised e

/-- `Vault.get_seal_type`: returns `seal_status["type"]`, no exception handling
of its own. -/
def get_seal_type (seal_status : Except PyExn SealStatusData) : Outcome String :=
  match seal_status with
  | .ok d => .ok d.seal_type
  | .error e => .raised e

/-- `Vault.is_seal_type_transit`: `"transit" == self.get_seal_type()`. -/
def is_seal_type_transit (seal_status : Except PyExn SealStatusData) : Outcome Bool :=
  match get_seal_type seal_status with
  | .ok t => .ok ("transit" == t)
  | .vaultClientError => .vaultClientError
  | .raised e => .raised e

/-- `Vault.is_active`: health status code 200, with `(VaultError,
RequestException)` caught into false. The response carries the HTTP status. -/
def is_active (resp : Except PyExn Nat) : Outcome Bool :=
  match resp with
  | .ok status => .ok (status == 200)
  | .error e =>
      if e.isVaultError || e.isRequestException then .ok false else .raised e

/-- `Vault.is_active_or_standby`: health status code 200 or 429, with
`(VaultError, RequestException)` caught into false. -/
def is_active_or_standby (resp : Except PyExn Nat) : Outcome Bool :=
  match resp with
  | .ok status => .ok (status == 200 || status == 429)
  | .error e =>
      if e.isVaultError || e.isRequestException then .ok false else .raised e

/-- Python `str.startswith`: the candidate start is a prefix of the character
sequence of the string. -/
def pyStartsWith (s msgStart : String) : Bool :=
  msgStart.data.isPrefixOf s.data

/-- The shared `except InvalidRequest` body of the three enable operations:
if `e.json` is falsy or not a dict, raise `VaultClientError`; else if
`e.json.get("errors", [])` is a single message starting with the given
message start, treat as success; else raise `VaultClientError`. -/
def handleEnableInvalidRequest (msgStart : String) (j : EJsonVal) : Outcome Unit :=
  if !j.truthy || !j.isDict then .vaultClientError
  else if j.errors.length == 1 && pyStartsWith (j.errors.headD "") msgStart then .ok ()
  else .vaultClientError

/-- `Vault.enable_audit_device`: the tolerated message starts with
`path already in use`; any other `VaultError` is wrapped into
`VaultClientError`. -/
def enable_audit_device (device_type : AuditDeviceType) (path : String)
    (resp : Except PyExn Unit) : Outcome Unit :=
  match resp with
  | .ok _ => .ok ()
  | .error (.invalidRequest j) => handleEnableInvalidRequest "path already in use" j
  | .error e => if e.isVaultError then .vaultClientError else .raised e

/-- `Vault.enable_approle_auth_method`: the tolerated message starts with
`path is already in use`; any other `VaultError` is wrapped into
`VaultClientError`. -/
def enable_approle_auth_method (resp : Except PyExn Unit) : Outcome Unit :=
  match resp with
  | .ok _ => .ok ()
  | .error (.invalidRequest j) => handleEnableInvalidRequest "path is already in use" j
  | .error e => if e.isVaultError then .vaultClientError else .raised e

/-- `Vault.enable_secrets_engine`: the tolerated message starts with
`path is already in use`; there is no `except VaultError` clause, so every
non-InvalidRequest exception propagates unchanged. -/
def enable_secrets_engine (backend_type : SecretsBackend) (path : String)
    (resp : Except PyExn Unit) : Outcome Unit :=
  match resp with
  | .ok _ => .ok ()
  | .error (.invalidRequest j) => handleEnableInvalidRequest "path is already in use" j
  | .error e => .raised e

/-- The `data` of a PKI sign-certificate response: the fields the source
reads. -/
structure SignResponseData where
  certificate : String
  issuing_ca : String
  ca_chain : List String
deriving DecidableEq, Repr

/-- `Vault.sign_pki_certificate_signing_request`: on success build a
`Certificate` from `certificate`, `issuing_ca` and `ca_chain`; on
`InvalidRequest` log and return `None`; other exceptions propagate. -/
def sign_pki_certificate_signing_request (mount role csr common_name : String)
    (resp : Except PyExn SignResponseData) : Outcome (Option Certificate) :=
  match resp with
  | .ok d =>
      .ok (some { certificate := d.certificate, ca := d.issuing_ca, chain := d.ca_chain })
  | .error (.invalidRequest _) => .ok none
  | .error e => .raised e

/-- `Vault.make_latest_pki_issuer_default`. Inputs model the two server reads:
`listIssuersResp` is `list_issuers(...)["data"]["keys"]` (the call raising
`InvalidPath`, the key lookups raising `KeyError`); `issuersConfig` is the
`read(f"{mount}/config/issuers")` result, `none` when the read returned a
falsy value, `some (.error ())` when the subscripting raised `TypeError` or
`KeyError`, `some (.ok b)` when `["data"]["default_follows_latest_issuer"]`
is a value of truthiness `b`. The result records the written data
`(default_follows_latest_issuer, default)` when the write happened. -/
def make_latest_pki_issuer_default (mount : String)
    (listIssuersResp : Except PyExn (List String))
    (issuersConfig : Option (Except Unit Bool)) : Outcome (Option (Bool × String)) :=
  match listIssuersResp with
  | .error e =>
      if e == .invalidPath || e == .keyError then .vaultClientError else .raised e
  | .ok keys =>
      match keys with
      | [] => .raised .indexError
      | first_issuer :: _ =>
          match issuersConfig with
          | none => .ok none
          | some (.error _) => .ok none
          | some (.ok follows) =>
              if !follows then .ok (some (true, first_issuer)) else .ok none

/-- One entry of `raft_config["data"]["config"]["servers"]`. -/
structure RaftPeer where
  node_id : String
  address : String
deriving DecidableEq, Repr

/-- The `for peer in servers` loop of `Vault.is_node_in_raft_peers`: return
true at the first peer whose `node_id` equals the queried one, false when the
loop ends. -/
def raftPeersScan (node_id : String) : List RaftPeer → Bool
  | [] => false
  | peer :: rest => if peer.node_id == node_id then true else raftPeersScan node_id rest

/-- `Vault.is_node_in_raft_peers`: linear scan over the servers list of the
raft config read from the server. -/
def is_node_in_raft_peers (node_id : String) (servers : List RaftPeer) : Bool :=
  raftPeersScan node_id servers

/-- `Vault.get_num_raft_peers`: length of the servers list. -/
def get_num_raft_peers (servers : List RaftPeer) : Nat :=
  servers.length

/-- Server-side state the auto-unseal lifecycle touches: existing approle
names, policy names, and transit keys as (mount, key name) pairs. -/
structure ServerState where
  approles : List String
  policies : List String
  transitKeys : List (String × String)
deriving DecidableEq, Repr

/-- The kwargs of `create_or_update_approle` as `Vault.configure_approle`
sends them. -/
structure ApproleRequest where
  role_name : String
  bind_secret_id : String
  token_ttl : Option String
  token_max_ttl : Option String
  token_policies : Option (List String)
  token_bound_cidrs : Option (List String)
  token_period : Option String
deriving DecidableEq, Repr

/-- `Vault.configure_approle`: upsert the role (always with
`bind_secret_id="true"`), then read and return its role id (the read response
is passed in). The sent request is part of the result so that theorems can
speak about it. -/
def configure_approle (role_name : String) (token_ttl token_max_ttl : Option String)
    (policies cidrs : Option (List String)) (token_period : Option String)
    (role_id_resp : String) (s : ServerState) : ApproleRequest × String × ServerState :=
  let req : ApproleRequest :=
    { role_name := role_name
      bind_secret_id := "true"
      token_ttl := token_ttl
      token_max_ttl := token_max_ttl
      token_policies := policies
      token_bound_cidrs := cidrs
      token_period := token_period }
  let s2 : ServerState :=
    { s with approles :=
        if role_name ∈ s.approles then s.approles else role_name :: s.approles }
  (req, role_id_resp, s2)

/-- `Vault.generate_role_secret_id`: return `response["data"]["secret_id"]`
of the generate-secret-id call. -/
def generate_role_secret_id (name : String) (cidrs : Option (List String))
    (secret_id_resp : String) : String :=
  secret_id_resp

/-- `Vault.configure_policy`: upsert the policy under the given name (the
policy text comes from a file; its content does not affect the name set). -/
def configure_policy (policy_name : String) (policy_text : String)
    (s : ServerState) : ServerState :=
  { s with policies :=
      if policy_name ∈ s.policies then s.policies else policy_name :: s.policies }

/-- `Vault._get_autounseal_policy_name`: `f"charm-autounseal-{relation_id}"`. -/
def _get_autounseal_policy_name (relation_id : Int) : String :=
  "charm-autounseal-" ++ toString relation_id

/-- `Vault._get_autounseal_approle_name`: `f"charm-autounseal-{relation_id}"`. -/
def _get_autounseal_approle_name (relation_id : Int) : String :=
  "charm-autounseal-" ++ toString relation_id

/-- `Vault._get_autounseal_key_name`: `str(relation_id)`. -/
def _get_autounseal_key_name (relation_id : Int) : String :=
  toString relation_id

/-- `Vault._create_autounseal_key`: create a transit key named after the
relation id under the given mount and return the key name. -/
def _create_autounseal_key (mount_point : String) (relation_id : Int)
    (s : ServerState) : String × ServerState :=
  let key_name := _get_autounseal_key_name relation_id
  (key_name,
   { s with transitKeys :=
       if (mount_point, key_name) ∈ s.transitKeys then s.transitKeys
       else (mount_point, key_name) :: s.transitKeys })

/-- `Vault._destroy_autounseal_key`: delete the transit key. In the source
this method exists but its only call site is commented out. -/
def _destroy_autounseal_key (mount_point key_name : String)
    (s : ServerState) : ServerState :=
  { s with transitKeys := s.transitKeys.filter (fun k => k ≠ (mount_point, key_name)) }

/-- `Vault.destroy_autounseal_credentials`: delete the approle and the policy
derived from the relation id; the transit-key deletion is commented out in the
source, so `transitKeys` is untouched. -/
def destroy_autounseal_credentials (relation_id : Int) (mount : String)
    (s : ServerState) : ServerState :=
  let role_name := _get_autounseal_approle_name relation_id
  let s1 : ServerState := { s with approles := s.approles.filter (fun n => n ≠ role_name) }
  let policy_name := _get_autounseal_policy_name relation_id
  { s1 with policies := s1.policies.filter (fun n => n ≠ policy_name) }

/-- `Vault.create_autounseal_credentials`: create the transit key, upsert the
derived policy, upsert the derived approle with `token_period="60s"`, generate
a secret id, and return `(key_name, role_id, secret_id)`. The role-id and
secret-id server responses are passed in. -/
def create_autounseal_credentials (relation_id : Int) (mount : String)
    (policy_text : String) (role_id_resp secret_id_resp : String)
    (s : ServerState) : (String × String × String) × ServerState :=
  let (key_name, s1) := _create_autounseal_key mount relation_id s
  let policy_name := _get_autounseal_policy_name relation_id
  let s2 := configure_policy policy_name policy_text s1
  let role_name := _get_autounseal_approle_name relation_id
  let (_, role_id, s3) :=
    configure_approle role_name none none (some [policy_name]) none (some "60s")
      role_id_resp s2
  let secret_id := generate_role_secret_id role_name none secret_id_resp
  ((key_name, role_id, secret_id), s3)

theorem handleEnableInvalidRequest_singleton (s msg : String) :
    handleEnableInvalidRequest s ⟨true, true, [msg]⟩ =
      if pyStartsWith msg s then .ok () else .vaultClientError := by
  simp [handleEnableInvalidRequest]

theorem handleEnableInvalidRequest_notDict (s : String) (b : Bool) (errs : List String) :
    handleEnableInvalidRequest s ⟨b, false, errs⟩ = .vaultClientError := by
  simp [handleEnableInvalidRequest]

theorem handleEnableInvalidRequest_falsy (s : String) (b : Bool) (errs : List String) :
    handleEnableInvalidRequest s ⟨false, b, errs⟩ = .vaultClientError := by
  simp [handleEnableInvalidRequest]

theorem handleEnableInvalidRequest_noErrors (s : String) :
    handleEnableInvalidRequest s ⟨true, true, []⟩ = .vaultClientError := by
  simp [handleEnableInvalidRequest]

theorem handleEnableInvalidRequest_manyErrors (s m1 m2 : String) (rest : List String) :
    handleEnableInvalidRequest s ⟨true, true, m1 :: m2 :: rest⟩ = .vaultClientError := by
  simp [handleEnableInvalidRequest]

/-- C1 counterexample: the claim does not hold as stated. First, the prefix
`path already in use` is tolerated only by `enable_audit_device`;
`enable_secrets_engine` (and `enable_approle_auth_method`) match
`path is already in use`, so an invalid-request whose single error starts with
`path already in use` makes `enable_secrets_engine` raise `VaultClientError`
instead of returning normally. Second, `enable_secrets_engine` has no
`except VaultError` clause, so a non-InvalidRequest server rejection such as
`Forbidden` propagates unwrapped rather than as `VaultClientError`. -/
theorem enable_secrets_engine_violates_claimed_pattern :
    (pyStartsWith "path already in use at sys/audit/x" "path already in use" = true) ∧
    enable_secrets_engine SecretsBackend.TRANSIT "charm-autounseal"
      (.error (.invalidRequest ⟨true, true, ["path already in use at sys/audit/x"]⟩)) =
      Outcome.vaultClientError ∧
    enable_secrets_engine SecretsBackend.TRANSIT "charm-autounseal"
      (.error .forbidden) = Outcome.raised .forbidden := by
  refine ⟨by decide, by decide, rfl⟩

/-- C1 (amended): behaviour of the three enable operations. A rejection is
downgraded to success exactly when it is an `InvalidRequest` whose json is a
truthy dict holding a single error message that starts with
`path already in use` for `enable_audit_device`, respectively
`path is already in use` for `enable_approle_auth_method` and
`enable_secrets_engine`. Any other `VaultError` is wrapped into
`VaultClientError` by `enable_audit_device` and `enable_approle_auth_method`;
`enable_secrets_engine` wraps only other `InvalidRequest` rejections and every
non-InvalidRequest exception propagates unchanged; non-`VaultError` exceptions
propagate unchanged from all three. -/
theorem enable_operations_error_classification (dt : AuditDeviceType)
    (bt : SecretsBackend) (p msg m1 m2 : String) (b : Bool) (errs rest : List String) :
    (enable_audit_device dt p (.ok ()) = .ok ()) ∧
    (enable_audit_device dt p (.error (.invalidRequest ⟨true, true, [msg]⟩)) =
      if pyStartsWith msg "path already in use" then .ok () else .vaultClientError) ∧
    (enable_audit_device dt p (.error (.invalidRequest ⟨b, false, errs⟩)) = .vaultClientError) ∧
    (enable_audit_device dt p (.error (.invalidRequest ⟨false, b, errs⟩)) = .vaultClientError) ∧
    (enable_audit_device dt p (.error (.invalidRequest ⟨true, true, []⟩)) = .vaultClientError) ∧
    (enable_audit_device dt p (.error (.invalidRequest ⟨true, true, m1 :: m2 :: rest⟩)) =
      .vaultClientError) ∧
    (enable_audit_device dt p (.error .invalidPath) = .vaultClientError) ∧
    (enable_audit_device dt p (.error .forbidden) = .vaultClientError) ∧
    (enable_audit_device dt p (.error .vaultError) = .vaultClientError) ∧
    (enable_audit_device dt p (.error .connectionError) = .raised .connectionError) ∧
    (enable_audit_device dt p (.error .requestException) = .raised .requestException) ∧
    (enable_approle_auth_method (.ok ()) = .ok ()) ∧
    (enable_approle_auth_method (.error (.invalidRequest ⟨true, true, [msg]⟩)) =
      if pyStartsWith msg "path is already in use" then .ok () else .vaultClientError) ∧
    (enable_approle_auth_method (.error (.invalidRequest ⟨b, false, errs⟩)) = .vaultClientError) ∧
    (enable_approle_auth_method (.error .vaultError) = .vaultClientError) ∧
    (enable_approle_auth_method (.error .connectionError) = .raised .connectionError) ∧
    (enable_secrets_engine bt p (.ok ()) = .ok ()) ∧
    (enable_secrets_engine bt p (.error (.invalidRequest ⟨true, true, [msg]⟩)) =
      if pyStartsWith msg "path is already in use" then .ok () else .vaultClientError) ∧
    (enable_secrets_engine bt p (.error (.invalidRequest ⟨b, false, errs⟩)) = .vaultClientError) ∧
    (enable_secrets_engine bt p (.error .vaultError) = .raised .vaultError) ∧
    (enable_secrets_engine bt p (.error .forbidden) = .raised .forbidden) ∧
    (enable_secrets_engine bt p (.error .invalidPath) = .raised .invalidPath) ∧
    (enable_secrets_engine bt p (.error .connectionError) = .raised .connectionError) := by
  refine ⟨rfl, handleEnableInvalidRequest_singleton _ _,
    handleEnableInvalidRequest_notDict _ _ _, handleEnableInvalidRequest_falsy _ _ _,
    handleEnableInvalidRequest_noErrors _, handleEnableInvalidRequest_manyErrors _ _ _ _,
    rfl, rfl, rfl, rfl, rfl,
    rfl, handleEnableInvalidRequest_singleton _ _,
    handleEnableInvalidRequest_notDict _ _ _, rfl, rfl,
    rfl, handleEnableInvalidRequest_singleton _ _,
    handleEnableInvalidRequest_notDict _ _ _, rfl, rfl, rfl, rfl⟩

/-- C2 counterexample: `is_initialized` has no exception handling of its own,
so a connection error raised by the underlying call propagates instead of
being swallowed into the boolean false. -/
theorem is_initialized_propagates_connection_error :
    is_initialized (.error .connectionError) = .raised .connectionError ∧
    is_initialized (.error .connectionError) ≠ .ok false := by
  refine ⟨rfl, by decide⟩

/-- C2 (amended): only `is_api_available`, `is_active` and
`is_active_or_standby` catch `VaultError` and `RequestException` and return
false; `is_initialized`, `is_sealed`, `needs_migration`, `get_seal_type` and
`is_seal_type_transit` perform the underlying call with no exception handling
of their own, so every exception it raises propagates to the caller. -/
theorem health_probe_error_behaviour (j : EJsonVal) (b : Bool)
    (d : SealStatusData) (e : PyExn) :
    (is_api_available (.ok ()) = .ok true) ∧
    (is_api_available (.error (.invalidRequest j)) = .ok false) ∧
    (is_api_available (.error .invalidPath) = .ok false) ∧
    (is_api_available (.error .forbidden) = .ok false) ∧
    (is_api_available (.error .vaultError) = .ok false) ∧
    (is_api_available (.error .connectionError) = .ok false) ∧
    (is_api_available (.error .requestException) = .ok false) ∧
    (is_active (.error .connectionError) = .ok false) ∧
    (is_active_or_standby (.error .connectionError) = .ok false) ∧
    (is_initialized (.ok b) = .ok b) ∧
    (is_initialized (.error e) = .raised e) ∧
    (is_sealed (.ok b) = .ok b) ∧
    (is_sealed (.error e) = .raised e) ∧
    (needs_migration (.ok d) = .ok d.migration) ∧
    (needs_migration (.error e) = .raised e) ∧
    (get_seal_type (.ok d) = .ok d.seal_type) ∧
    (get_seal_type (.error e) = .raised e) ∧
    (is_seal_type_transit (.ok d) = .ok ("transit" == d.seal_type)) ∧
    (is_seal_type_transit (.error e) = .raised e) :=
  ⟨rfl, rfl, rfl, rfl, rfl, rfl, rfl, rfl, rfl, rfl, rfl, rfl, rfl, rfl, rfl,
   rfl, rfl, rfl, rfl⟩

/-- C3 counterexample: when the backend has no issuers yet (`list_issuers`
raising `InvalidPath`, the config read returning nothing), the method raises
`VaultClientError` instead of returning normally, so absence of prior issuers
is not treated as a silent not-yet-ready case. -/
theorem make_latest_pki_issuer_default_raises_without_issuers :
    make_latest_pki_issuer_default "charm-pki" (.error .invalidPath) none =
      Outcome.vaultClientError ∧
    make_latest_pki_issuer_default "charm-pki" (.error .invalidPath) none ≠
      Outcome.ok none := by
  refine ⟨by decide, by decide⟩

/-- C3 (amended): `make_latest_pki_issuer_default` raises `VaultClientError`
when the backend has no issuers yet (`InvalidPath` from the list call or
`KeyError` on its response); when issuers exist, the config write (setting
`default_follows_latest_issuer` and `default` to the first issuer) happens
exactly when the issuers config read yields a truthy value whose
`default_follows_latest_issuer` field is falsy; an absent or malformed config
is treated as not yet created and the method returns without raising. -/
theorem make_latest_pki_issuer_default_write_condition (mount fi : String)
    (rest : List String) (cfg : Option (Except Unit Bool)) :
    (make_latest_pki_issuer_default mount (.error .invalidPath) cfg =
      Outcome.vaultClientError) ∧
    (make_latest_pki_issuer_default mount (.error .keyError) cfg =
      Outcome.vaultClientError) ∧
    (make_latest_pki_issuer_default mount (.ok (fi :: rest)) none = .ok none) ∧
    (make_latest_pki_issuer_default mount (.ok (fi :: rest)) (some (.error ())) =
      .ok none) ∧
    (make_latest_pki_issuer_default mount (.ok (fi :: rest)) (some (.ok true)) =
      .ok none) ∧
    (make_latest_pki_issuer_default mount (.ok (fi :: rest)) (some (.ok false)) =
      .ok (some (true, fi))) := by
  refine ⟨by simp [make_latest_pki_issuer_default],
    by simp [make_latest_pki_issuer_default], rfl, rfl, rfl, rfl⟩

/-- C4 counterexample: the `Token` variant of `authenticate` installs the given
token on the client without any server round trip, so `authenticate` returns
true even for a token the server does not accept: in the same model a token
self-lookup can answer `Forbidden`, which `get_token_data` maps to `none`
(token not accepted). The approle login response is irrelevant for the
`Token` variant. -/
theorem authenticate_token_without_server_validation :
    authenticate (.token "garbage") (.error .forbidden) { token := none } =
      .ok (true, { token := some "garbage" }) ∧
    get_token_data (.error .forbidden) = .ok none := by
  refine ⟨rfl, rfl⟩

/-- C4 (amended): `authenticate` returns true exactly when the login raised no
`VaultError` or `ConnectionError`. The `Token` variant sets the token on the
client with no server validation, so success does not imply the server
accepts the token; the `AppRole` variant installs the server-returned token
on success; a `VaultError` or `ConnectionError` during login yields false
with the client unchanged, and any other exception propagates. -/
theorem authenticate_classification (t rid sid tok : String) (c : Client)
    (j : EJsonVal) (r : Except PyExn String) :
    (authenticate (.token t) r c = .ok (true, { c with token := some t })) ∧
    (authenticate (.appRole rid sid) (.ok tok) c =
      .ok (true, { c with token := some tok })) ∧
    (authenticate (.appRole rid sid) (.error (.invalidRequest j)) c = .ok (false, c)) ∧
    (authenticate (.appRole rid sid) (.error .invalidPath) c = .ok (false, c)) ∧
    (authenticate (.appRole rid sid) (.error .forbidden) c = .ok (false, c)) ∧
    (authenticate (.appRole rid sid) (.error .vaultError) c = .ok (false, c)) ∧
    (authenticate (.appRole rid sid) (.error .connectionError) c = .ok (false, c)) ∧
    (authenticate (.appRole rid sid) (.error .requestException) c =
      .raised .requestException) ∧
    (authenticate (.appRole rid sid) (.error .typeError) c = .raised .typeError) :=
  ⟨rfl, rfl, rfl, rfl, rfl, rfl, rfl, rfl, rfl⟩

/-- C5: `is_active` answers true exactly when the health endpoint reported
status 200, `is_active_or_standby` exactly when it reported 200 or 429; in
particular status 429 gives false for `is_active` and true for
`is_active_or_standby`. -/
theorem is_active_iff_status_200 (resp : Except PyExn Nat) :
    (is_active resp = .ok true ↔ resp = .ok 200) ∧
    (is_active_or_standby resp = .ok true ↔ (resp = .ok 200 ∨ resp = .ok 429)) ∧
    (is_active (.ok 429) = .ok false) ∧
    (is_active_or_standby (.ok 429) = .ok true) := by
  refine ⟨?_, ?_, by decide, by decide⟩
  · match resp with
    | .ok n => simp [is_active]
    | .error e =>
        cases e <;>
          simp [is_active, PyExn.isVaultError, PyExn.isRequestException]
  · match resp with
    | .ok n => simp [is_active_or_standby, or_comm]
    | .error e =>
        cases e <;>
          simp [is_active_or_standby, PyExn.isVaultError, PyExn.isRequestException]

/-- C6: `sign_pki_certificate_signing_request` returns `none` instead of
raising when the server rejects the signing request with `InvalidRequest`,
and on success returns a `Certificate` built from the `certificate`,
`issuing_ca` and `ca_chain` fields of the response data. -/
theorem sign_pki_csr_outcomes (mount role csr cn : String)
    (d : SignResponseData) (j : EJsonVal) :
    (sign_pki_certificate_signing_request mount role csr cn (.ok d) =
      .ok (some { certificate := d.certificate, ca := d.issuing_ca,
                  chain := d.ca_chain })) ∧
    (sign_pki_certificate_signing_request mount role csr cn
      (.error (.invalidRequest j)) = .ok none) :=
  ⟨rfl, rfl⟩

/-- C7: `destroy_autounseal_credentials` removes exactly the approle and the
policy whose names derive from the relation id and leaves the transit keys
(and everything else) unchanged; the only public operation touching transit
keys, `create_autounseal_credentials`, only inserts, so the deletion path
`_destroy_autounseal_key` is exercised by no public operation. -/
theorem destroy_autounseal_credentials_frame (relation_id : Int)
    (mount pt rresp sresp : String) (s : ServerState) :
    ((destroy_autounseal_credentials relation_id mount s).transitKeys =
      s.transitKeys) ∧
    ((destroy_autounseal_credentials relation_id mount s).approles =
      s.approles.filter (fun n => n ≠ _get_autounseal_approle_name relation_id)) ∧
    ((destroy_autounseal_credentials relation_id mount s).policies =
      s.policies.filter (fun n => n ≠ _get_autounseal_policy_name relation_id)) ∧
    ((create_autounseal_credentials relation_id mount pt rresp sresp s).2.transitKeys =
      if (mount, _get_autounseal_key_name relation_id) ∈ s.transitKeys
      then s.transitKeys
      else (mount, _get_autounseal_key_name relation_id) :: s.transitKeys) := by
  refine ⟨rfl, rfl, rfl, ?_⟩
  simp [create_autounseal_credentials, _create_autounseal_key, configure_policy,
    configure_approle]

/-- C8: the auto-unseal names are fixed templates of the relation id: policy
and approle names are both `charm-autounseal-` followed by the decimal id and
the key name is the decimal id itself; `create_autounseal_credentials`
returns the triple of the key name, the role id read from the server and the
generated secret id. The conjuncts at id 7 state the concrete instances. -/
theorem autounseal_names_deterministic (relation_id : Int)
    (mount pt rresp sresp : String) (s : ServerState) :
    (_get_autounseal_policy_name relation_id =
      "charm-autounseal-" ++ toString relation_id) ∧
    (_get_autounseal_approle_name relation_id =
      "charm-autounseal-" ++ toString relation_id) ∧
    (_get_autounseal_key_name relation_id = toString relation_id) ∧
    (_get_autounseal_policy_name 7 = "charm-autounseal-7") ∧
    (_get_autounseal_approle_name 7 = "charm-autounseal-7") ∧
    (_get_autounseal_key_name 7 = "7") ∧
    ((create_autounseal_credentials relation_id mount pt rresp sresp s).1 =
      (toString relation_id, rresp, sresp)) := by
  refine ⟨rfl, rfl, rfl, by decide, by decide, by decide, rfl⟩

theorem raftPeersScan_eq_any (node_id : String) (l : List RaftPeer) :
    raftPeersScan node_id l = l.any (fun p => p.node_id == node_id) := by
  induction l with
  | nil => rfl
  | cons p rest ih => cases h : p.node_id == node_id <;> simp [raftPeersScan, h, ih]

/-- C9: `is_node_in_raft_peers` answers true exactly when some peer of the
servers list returned by the raft config read carries the queried node id,
and false otherwise, in particular on the empty peer list. -/
theorem is_node_in_raft_peers_iff (node_id : String) (servers : List RaftPeer) :
    (is_node_in_raft_peers node_id servers = true ↔
      ∃ p, p ∈ servers ∧ p.node_id = node_id) ∧
    is_node_in_raft_peers node_id [] = false := by
  refine ⟨?_, rfl⟩
  rw [is_node_in_raft_peers, raftPeersScan_eq_any]
  simp [List.any_eq_true]

/-- C10: whatever ttl, max-ttl, policies, cidrs and period arguments are
supplied, the approle upsert request sent by `configure_approle` always
carries `bind_secret_id = "true"`, so every role provisioned through the
facade requires a secret id to log in. -/
theorem configure_approle_always_binds_secret_id (role_name : String)
    (ttl mttl period : Option String) (pols cidrs : Option (List String))
    (rresp : String) (s : ServerState) :
    (configure_approle role_name ttl mttl pols cidrs period rresp s).1.bind_secret_id =
      "true" :=
  rfl

end VaultClient
